import Mathlib

/-!
Shallow embedding of the UMS (Unidades Móviles de Salud) modeling engine:
the Monte Carlo operational simulator (`src/modelo_practico.py`,
`src/simulacion.py`), the cost primitives (`src/costos.py`), the
configuration optimizer (`src/modelo_teorico.py`, `src/optimizacion.py`)
and the gap/compliance evaluator (`src/analisis_brechas.py`).

Conventions of the embedding:
* Python floats and ints are modeled as exact rationals (`ℚ`); numeric
  literals such as `0.4`, `1.2`, `0.1` become `2/5`, `6/5`, `1/10`.
* A Python expression that raises (`ValueError` from `np.random.poisson`
  on a negative rate, `ZeroDivisionError` from `x / 0.0`) is modeled by
  `Option`, with `none` for the raising computation.
* `float('inf')` (returned by `analizar_sostenibilidad` on zero cost) is
  modeled by the dedicated constructor `SostValor.inf`.
* Random draws of the simulator are abstracted as an explicit stream of
  natural numbers (the support of any Poisson distribution), so the
  simulator becomes a deterministic function of the draw stream.
-/

namespace UMS

/-! ## Cost primitives (`src/costos.py`) -/

/-- Result of the sustainability ratio: either a finite rational or the
IEEE positive infinity produced by `float('inf')`. -/
inductive SostValor
  | inf
  | val (q : ℚ)
deriving DecidableEq, Repr

/-- `calcular_costos_totales` (costos.py line 8):
`costos_fijos + atenciones * costo_variable`. -/
def calcular_costos_totales (atenciones costos_fijos costo_variable : ℚ) : ℚ :=
  costos_fijos + atenciones * costo_variable

/-- `analizar_sostenibilidad` (costos.py lines 39-53):
returns `float('inf')` when `costos == 0`, otherwise `ingresos / costos`. -/
def analizar_sostenibilidad (ingresos costos : ℚ) : SostValor :=
  if costos = 0 then .inf else .val (ingresos / costos)

/-! ## Stochastic draw primitive (`src/simulacion.py`) -/

/-- `generar_demanda_diaria` (simulacion.py lines 9-19):
`np.random.poisson(lambda_poisson)`.  The draw itself is supplied as an
oracle `draw : ℕ` (any natural number is in the support of a Poisson
distribution); `np.random.poisson` raises `ValueError` when the rate is
negative, modeled by `none`. -/
def generar_demanda_diaria (lambda_poisson : ℚ) (draw : ℕ) : Option ℕ :=
  if lambda_poisson < 0 then none else some draw

/-! ## Operational data of the practical model (`src/modelo_practico.py`) -/

/-- The `capacidad` block of `datos_operativos`. -/
structure Capacidad where
  pacientes_dia : ℚ
  dias_mes : ℕ
  eficiencia : ℚ
deriving DecidableEq, Repr

/-- The `costos` block of `datos_operativos` (only the fields read by the
simulation loop). -/
structure CostosOperativos where
  fijo_mensual : ℚ
  variable_paciente : ℚ
  costo_unitario_atencion : ℚ
deriving DecidableEq, Repr

/-- The slice of `datos_operativos` read by `_simular_operacion`
(capacity block, cost block, and `cobertura.poblacion_objetivo`). -/
structure DatosOperativos where
  capacidad : Capacidad
  costos : CostosOperativos
  poblacion_objetivo : ℚ
deriving DecidableEq, Repr

/-- The default `datos_operativos` installed by `UMSPractico.__init__`. -/
def datos_defecto : DatosOperativos :=
  { capacidad := { pacientes_dia := 24, dias_mes := 20, eficiencia := 2/5 }
  , costos := { fijo_mensual := 17291667, variable_paciente := 45000
              , costo_unitario_atencion := 103750 }
  , poblacion_objetivo := 10000 }

/-- Per-month (and, after averaging, per-trial) record of the four metrics
tracked by `_simular_operacion`. -/
structure ResMes where
  demanda : ℚ
  costos : ℚ
  cobertura : ℚ
  sostenibilidad : SostValor
deriving DecidableEq, Repr

/-- The inner daily loop of `_simular_operacion` (modelo_practico.py lines
130-138): sums `min(demanda_diaria, capacidad_diaria * eficiencia)` over
the `dias_mes` days; `none` if the Poisson sampler raises. -/
def demanda_mensual? (p : DatosOperativos) (draws : ℕ → ℕ) : Option ℚ :=
  (List.range p.capacidad.dias_mes).foldl
    (fun acc dia => acc.bind fun s =>
      (generar_demanda_diaria p.capacidad.pacientes_dia (draws dia)).map fun dd =>
        s + min (dd : ℚ) (p.capacidad.pacientes_dia * p.capacidad.eficiencia))
    (some 0)

/-- One month of `_simular_operacion` (modelo_practico.py lines 129-162):
monthly demand, monthly cost, coverage `min(1, demanda / (poblacion/6))`
(a `ZeroDivisionError`, hence `none`, when the divisor is zero) and the
sustainability ratio. -/
def simular_mes? (p : DatosOperativos) (draws : ℕ → ℕ) : Option ResMes :=
  (demanda_mensual? p draws).bind fun demanda_mensual =>
    let costos_mes := calcular_costos_totales demanda_mensual
      p.costos.fijo_mensual p.costos.variable_paciente
    let poblacion_atendible_mensual := p.poblacion_objetivo / 6
    if poblacion_atendible_mensual = 0 then none
    else some
      { demanda := demanda_mensual
      , costos := costos_mes
      , cobertura := min 1 (demanda_mensual / poblacion_atendible_mensual)
      , sostenibilidad := analizar_sostenibilidad
          (demanda_mensual * p.costos.costo_unitario_atencion) costos_mes }

/-- `np.mean` over a list of rationals (the lists produced by the
simulator are nonempty whenever the trial count and horizon are
positive; on `[]` the code would produce a NaN warning, a case no claim
reaches). -/
def mediaQ (datos : List ℚ) : ℚ := datos.sum / datos.length

/-- `np.mean` over a list of sustainability values: with a positive
infinity present the float mean is again positive infinity. -/
def mediaSost (datos : List SostValor) : SostValor :=
  if datos.any fun v => v = SostValor.inf then .inf
  else .val (mediaQ (datos.map fun v => match v with | .inf => 0 | .val q => q))

/-- `_simular_operacion` (modelo_practico.py lines 113-170): runs
`horizonte_temporal` months and returns the per-trial arithmetic means of
the four monthly series. -/
def simular_operacion? (p : DatosOperativos) (horizonte_temporal : ℕ)
    (draws : ℕ → ℕ → ℕ) : Option ResMes :=
  ((List.range horizonte_temporal).mapM fun mes => simular_mes? p (draws mes)).map
    fun meses =>
      { demanda := mediaQ (meses.map ResMes.demanda)
      , costos := mediaQ (meses.map ResMes.costos)
      , cobertura := mediaQ (meses.map ResMes.cobertura)
      , sostenibilidad := mediaSost (meses.map ResMes.sostenibilidad) }

/-- The trial loop of `UMSPractico.simular` (modelo_practico.py lines
96-106): `num_simulaciones` independent trials. -/
def simular? (p : DatosOperativos) (num_simulaciones horizonte_temporal : ℕ)
    (draws : ℕ → ℕ → ℕ → ℕ) : Option (List ResMes) :=
  (List.range num_simulaciones).mapM fun i =>
    simular_operacion? p horizonte_temporal (draws i)

/-! ## Descriptive statistics (`UMSPractico._calcular_estadisticas`) -/

/-- `np.percentile(datos, q)` with the default linear interpolation:
on the sorted data, position `(n-1)*q/100`, linearly interpolated between
the two neighbouring order statistics.  `np.median` is the `q = 50` case. -/
def percentilQ (datos : List ℚ) (q : ℚ) : ℚ :=
  let s := datos.mergeSort fun a b => a ≤ b
  if s.length = 0 then 0
  else
    let pos : ℚ := ((s.length : ℚ) - 1) * q / 100
    let i : ℕ := (Int.floor pos).toNat
    let a := s.getD i 0
    let b := s.getD (i + 1) a
    a + (pos - i) * (b - a)

/-- `np.std(datos) ^ 2`, the population variance.  The code stores the
square root of this quantity; a square root is nonnegative exactly when
its radicand is, so the embedding tracks the variance. -/
def varianzaQ (datos : List ℚ) : ℚ :=
  mediaQ (datos.map fun x => (x - mediaQ datos) ^ 2)

/-- `np.min` of a nonempty list (the statistics are computed over one
value per trial; `np.min` of `[]` raises, a case no claim reaches). -/
def minimoQ : List ℚ → ℚ
  | [] => 0
  | x :: xs => xs.foldl min x

/-- `np.max` of a nonempty list. -/
def maximoQ : List ℚ → ℚ
  | [] => 0
  | x :: xs => xs.foldl max x

/-- The seven derived statistics of one metric
(`_calcular_estadisticas`, modelo_practico.py lines 172-184).
`varianza` is the square of the stored `desviacion`. -/
structure Estadisticas where
  media : ℚ
  mediana : ℚ
  varianza : ℚ
  minimo : ℚ
  maximo : ℚ
  percentil_25 : ℚ
  percentil_75 : ℚ
deriving DecidableEq, Repr

/-- Statistics of one metric over the per-trial outcomes. -/
def estadisticas (datos : List ℚ) : Estadisticas :=
  { media := mediaQ datos
  , mediana := percentilQ datos 50
  , varianza := varianzaQ datos
  , minimo := minimoQ datos
  , maximo := maximoQ datos
  , percentil_25 := percentilQ datos 25
  , percentil_75 := percentilQ datos 75 }

/-- Finite projection of a list of sustainability values: `some` of the
underlying rationals when every trial mean is finite, `none` when some
trial produced the `float('inf')` sentinel (in which case the float
statistics degenerate to infinities and NaNs, outside this rational
embedding). -/
def valoresFinitos? : List SostValor → Option (List ℚ)
  | [] => some []
  | SostValor.inf :: _ => none
  | SostValor.val q :: resto => (valoresFinitos? resto).map fun l => q :: l

/-- The aggregated statistics block built by `_calcular_estadisticas`. -/
structure EstadisticasTotales where
  demanda : Estadisticas
  costos : Estadisticas
  cobertura : Estadisticas
  sostenibilidad : Option Estadisticas
deriving DecidableEq, Repr

/-- `_calcular_estadisticas` over the list of per-trial outcomes. -/
def calcular_estadisticas (trials : List ResMes) : EstadisticasTotales :=
  { demanda := estadisticas (trials.map ResMes.demanda)
  , costos := estadisticas (trials.map ResMes.costos)
  , cobertura := estadisticas (trials.map ResMes.cobertura)
  , sostenibilidad :=
      (valoresFinitos? (trials.map ResMes.sostenibilidad)).map estadisticas }

/-! ## Theoretical model (`src/modelo_teorico.py`, `src/optimizacion.py`) -/

/-- The decision vector / resolved configuration
`[capacidad_diaria, eficiencia_operativa, cobertura_objetivo, costo_unitario]`. -/
structure Configuracion where
  capacidad_diaria : ℚ
  eficiencia_operativa : ℚ
  cobertura_objetivo : ℚ
  costo_unitario : ℚ
deriving DecidableEq, Repr

/-- The entries of `metas_ideales` read by the optimizer and the
compliance evaluation. -/
structure MetasIdeales where
  poblacion_objetivo : ℚ
  capacidad_optima : ℚ
  eficiencia_operativa : ℚ
  costo_unitario_max : ℚ
  sostenibilidad_min : ℚ
deriving DecidableEq, Repr

/-- The default `metas_ideales` installed by `UMSTeorico.__init__`. -/
def metas_defecto : MetasIdeales :=
  { poblacion_objetivo := 1, capacidad_optima := 40
  , eficiencia_operativa := 4/5, costo_unitario_max := 70000
  , sostenibilidad_min := 1 }

/-- The default `configuracion_inicial` of `UMSTeorico.__init__`. -/
def configuracion_inicial : Configuracion :=
  { capacidad_diaria := 30, eficiencia_operativa := 7/10
  , cobertura_objetivo := 4/5, costo_unitario := 90000 }

/-- The module-level `funcion_objetivo` (optimizacion.py lines 9-62):
`0.4 * (costo_total / 25000000) + 0.6 * (0.25 * four deviation penalties
+ 2.0 * sustainability shortfall)`, with
`costo_total = 17291667 + atenciones * costo_unitario` and
`atenciones = capacidad * eficiencia * 20`. -/
def funcion_objetivo (x : Configuracion) (metas : MetasIdeales) : ℚ :=
  let penalizacion_capacidad :=
    |x.capacidad_diaria - metas.capacidad_optima| / metas.capacidad_optima
  let penalizacion_eficiencia :=
    |x.eficiencia_operativa - metas.eficiencia_operativa| / metas.eficiencia_operativa
  let penalizacion_cobertura :=
    |x.cobertura_objetivo - metas.poblacion_objetivo| / metas.poblacion_objetivo
  let penalizacion_costo :=
    |x.costo_unitario - metas.costo_unitario_max| / metas.costo_unitario_max
  let dias_mes : ℚ := 20
  let atenciones_mensuales := x.capacidad_diaria * x.eficiencia_operativa * dias_mes
  let costo_fijo_mensual : ℚ := 17291667
  let costo_total := costo_fijo_mensual + atenciones_mensuales * x.costo_unitario
  let ingresos_estimados := atenciones_mensuales * x.costo_unitario * (11/10)
  let sostenibilidad := if 0 < costo_total then ingresos_estimados / costo_total else 0
  let penalizacion_sostenibilidad := max 0 (metas.sostenibilidad_min - sostenibilidad)
  let costo_normalizado := costo_total / 25000000
  let penalizacion_total :=
    (1/4) * penalizacion_capacidad + (1/4) * penalizacion_eficiencia +
    (1/4) * penalizacion_cobertura + (1/4) * penalizacion_costo +
    2 * penalizacion_sostenibilidad
  (2/5) * costo_normalizado + (3/5) * penalizacion_total

/-- The inner `funcion_objetivo` actually minimized by
`UMSTeorico.optimizar` in solver mode (modelo_teorico.py lines 135-154):
`0.4 * (costo_unitario / costo_unitario_max)` plus `0.2` times each of
the three relative deviation penalties. -/
def funcion_objetivo_teorico (x : Configuracion) (metas : MetasIdeales) : ℚ :=
  let costo_normalizado := x.costo_unitario / metas.costo_unitario_max
  let penalizacion_capacidad :=
    |x.capacidad_diaria - metas.capacidad_optima| / metas.capacidad_optima
  let penalizacion_eficiencia :=
    |x.eficiencia_operativa - metas.eficiencia_operativa| / metas.eficiencia_operativa
  let penalizacion_cobertura :=
    |x.cobertura_objetivo - metas.poblacion_objetivo| / metas.poblacion_objetivo
  (2/5) * costo_normalizado + (1/5) * penalizacion_capacidad +
    (1/5) * penalizacion_eficiencia + (1/5) * penalizacion_cobertura

/-- The derived statistics block of `_calcular_estadisticas_derivadas`. -/
structure Derivadas where
  atenciones_mensuales : ℚ
  poblacion_cubierta : ℚ
  ums_requeridas_100k : ℚ
  costo_total_mensual : ℚ
  costo_por_habitante_mes : ℚ
deriving DecidableEq, Repr

/-- `_calcular_estadisticas_derivadas` (modelo_teorico.py lines 210-250).
`ums_requeridas_100k = 100000 / (poblacion_cubierta / 1)` raises
`ZeroDivisionError` when the covered population is zero (modeled by
`none`); only `costo_por_habitante_mes` carries a zero guard. -/
def calcular_estadisticas_derivadas (config : Configuracion) : Option Derivadas :=
  let dias_mes : ℚ := 20
  let atenciones_mensuales := config.capacidad_diaria * config.eficiencia_operativa * dias_mes
  let poblacion_referencia : ℚ := 10000
  let poblacion_cubierta := poblacion_referencia * config.cobertura_objetivo
  if poblacion_cubierta / 1 = 0 then none
  else
    let costo_total_mensual := config.costo_unitario * atenciones_mensuales
    some
      { atenciones_mensuales := atenciones_mensuales
      , poblacion_cubierta := poblacion_cubierta
      , ums_requeridas_100k := 100000 / (poblacion_cubierta / 1)
      , costo_total_mensual := costo_total_mensual
      , costo_por_habitante_mes :=
          if 0 < poblacion_cubierta then costo_total_mensual / poblacion_cubierta else 0 }

/-- One `detallado` entry of the compliance report. -/
structure Detalle where
  valor_real : ℚ
  meta : ℚ
  cumplimiento : ℚ
deriving DecidableEq, Repr

/-- The `cumplimiento` block built by `_evaluar_cumplimiento_metas`:
global score, the four `por_categoria` scores, and the five `detallado`
entries. -/
structure Cumplimiento where
  global : ℚ
  cobertura : ℚ
  operacion : ℚ
  financiero : ℚ
  calidad : ℚ
  det_cobertura : Detalle
  det_eficiencia : Detalle
  det_capacidad : Detalle
  det_costo : Detalle
  det_sostenibilidad : Detalle
deriving DecidableEq, Repr

/-- `_evaluar_cumplimiento_metas` (modelo_teorico.py lines 252-347).
Each of the four goal values used as a denominator raises
`ZeroDivisionError` when zero (modeled by `none`); the cost denominator
`max(costo_real, 1)` never vanishes. -/
def evaluar_cumplimiento_metas (metas : MetasIdeales) (config : Configuracion) :
    Option Cumplimiento :=
  if metas.poblacion_objetivo = 0 ∨ metas.eficiencia_operativa = 0 ∨
      metas.capacidad_optima = 0 ∨ metas.sostenibilidad_min = 0 then none
  else
    let cumplimiento_cobertura := min (config.cobertura_objetivo / metas.poblacion_objetivo) 1
    let cumplimiento_eficiencia :=
      min (config.eficiencia_operativa / metas.eficiencia_operativa) 1
    let cumplimiento_capacidad := min (config.capacidad_diaria / metas.capacidad_optima) 1
    let cumplimiento_operacion := (cumplimiento_eficiencia + cumplimiento_capacidad) / 2
    let cumplimiento_costo := min (metas.costo_unitario_max / max config.costo_unitario 1) 1
    let sostenibilidad_real := min (6/5) (metas.sostenibilidad_min + 1/10)
    let cumplimiento_sostenibilidad := min (sostenibilidad_real / metas.sostenibilidad_min) 1
    let cumplimiento_financiero := (cumplimiento_costo + cumplimiento_sostenibilidad) / 2
    let calidad_estimada := (cumplimiento_cobertura + cumplimiento_operacion) / 2
    let cumplimiento_global :=
      cumplimiento_cobertura * (3/10) + cumplimiento_operacion * (3/10) +
      cumplimiento_financiero * (1/4) + calidad_estimada * (3/20)
    some
      { global := cumplimiento_global
      , cobertura := cumplimiento_cobertura
      , operacion := cumplimiento_operacion
      , financiero := cumplimiento_financiero
      , calidad := calidad_estimada
      , det_cobertura := ⟨config.cobertura_objetivo, metas.poblacion_objetivo,
          cumplimiento_cobertura⟩
      , det_eficiencia := ⟨config.eficiencia_operativa, metas.eficiencia_operativa,
          cumplimiento_eficiencia⟩
      , det_capacidad := ⟨config.capacidad_diaria, metas.capacidad_optima,
          cumplimiento_capacidad⟩
      , det_costo := ⟨config.costo_unitario, metas.costo_unitario_max, cumplimiento_costo⟩
      , det_sostenibilidad := ⟨sostenibilidad_real, metas.sostenibilidad_min,
          cumplimiento_sostenibilidad⟩ }

/-- Outcome of the `scipy.optimize.minimize` call as seen by the caller:
either the call (or anything else inside the `try` block) raised, or it
returned a result object with iterate `x` and a convergence flag
`success`.  `UMSTeorico.optimizar` never reads `success`. -/
inductive SolverOutcome
  | raised
  | ok (x : Configuracion) (success : Bool)

/-- The `resultados` dictionary produced by a non-empty optimization. -/
structure Resultados where
  configuracion : Configuracion
  estadisticas : Derivadas
  cumplimiento : Cumplimiento
deriving DecidableEq, Repr

/-- The solver-mode branch of `UMSTeorico.optimizar` (modelo_teorico.py
lines 133-208): on any exception inside the `try` block the method
returns the empty dict (`none`); otherwise it stores the solver iterate
`resultado.x` as the configuration — without consulting
`resultado.success` — and runs the two derivation passes (whose own
`ZeroDivisionError`s are caught by the same `except`). -/
def optimizar_solver (metas : MetasIdeales) (resultado : SolverOutcome) :
    Option Resultados :=
  match resultado with
  | .raised => none
  | .ok x _success =>
    (calcular_estadisticas_derivadas x).bind fun est =>
      (evaluar_cumplimiento_metas metas x).map fun cum =>
        { configuracion := x, estadisticas := est, cumplimiento := cum }

/-! ## Gap analysis (`src/analisis_brechas.py`) -/

/-- The three priority tiers (`'Baja'`, `'Media'`, `'Alta'`). -/
inductive Prioridad
  | Baja
  | Media
  | Alta
deriving DecidableEq, Repr

/-- The sort rank used by `generar_recomendaciones`
(`orden_prioridad = {'Alta': 0, 'Media': 1, 'Baja': 2}`). -/
def Prioridad.orden : Prioridad → ℕ
  | .Alta => 0
  | .Media => 1
  | .Baja => 2

/-- Strictness of a priority: `Alta` is the strictest.  This is the
inverse scale of `Prioridad.orden`. -/
def Prioridad.severidad : Prioridad → ℕ
  | .Baja => 0
  | .Media => 1
  | .Alta => 2

/-- The priority loop of `comparar_modelos` (analisis_brechas.py lines
89-96): `|brecha| >= 0.5 → Alta`, `|brecha| >= 0.2 → Media`, else `Baja`. -/
def asignar_prioridad (brecha : ℚ) : Prioridad :=
  if 1/2 ≤ |brecha| then .Alta
  else if 1/5 ≤ |brecha| then .Media
  else .Baja

/-- `calcular_brecha_porcentual` (analisis_brechas.py lines 100-121):
`0` when the ideal value is zero, otherwise the relative deviation, with
the sign flipped when `menor_mejor` is set. -/
def calcular_brecha_porcentual (valor_real valor_ideal : ℚ)
    (menor_mejor : Bool) : ℚ :=
  if valor_ideal = 0 then 0
  else
    let brecha := (valor_real - valor_ideal) / valor_ideal
    if menor_mejor then -brecha else brecha

/-- One entry of the gap matrix. -/
structure EntradaBrecha where
  real : ℚ
  ideal : ℚ
  brecha : ℚ
  prioridad : Prioridad
deriving DecidableEq, Repr

/-- The practical-model values read by `comparar_modelos` (means of the
simulation statistics plus the configured efficiency). -/
structure DatosReales where
  cobertura : ℚ
  eficiencia : ℚ
  costos : ℚ
  demanda : ℚ
  sostenibilidad : ℚ
deriving DecidableEq, Repr

/-- The theoretical-model values read by `comparar_modelos` (resolved
configuration plus the sustainability goal). -/
structure DatosIdeales where
  cobertura : ℚ
  eficiencia : ℚ
  costo_atencion : ℚ
  sostenibilidad : ℚ
deriving DecidableEq, Repr

/-- Gap-matrix entry for one indicator: value pair, relative gap, and the
priority assigned by the loop of lines 89-96. -/
def entradaBrecha (valor_real valor_ideal : ℚ) (menor_mejor : Bool) : EntradaBrecha :=
  let brecha := calcular_brecha_porcentual valor_real valor_ideal menor_mejor
  ⟨valor_real, valor_ideal, brecha, asignar_prioridad brecha⟩

/-- The matrix-building part of `comparar_modelos` (analisis_brechas.py
lines 38-98), as the insertion-ordered dictionary
`cobertura, eficiencia, costo_efectividad, sostenibilidad`.  The real
cost per attention is `costos / max(1, demanda)`; `menor_mejor` is set
for `costo_efectividad` only. -/
def comparar_modelos (reales : DatosReales) (ideales : DatosIdeales) :
    List (String × EntradaBrecha) :=
  let costo_atencion_real := reales.costos / max 1 reales.demanda
  [ ("cobertura", entradaBrecha reales.cobertura ideales.cobertura false)
  , ("eficiencia", entradaBrecha reales.eficiencia ideales.eficiencia false)
  , ("costo_efectividad", entradaBrecha costo_atencion_real ideales.costo_atencion true)
  , ("sostenibilidad", entradaBrecha reales.sostenibilidad ideales.sostenibilidad false) ]

/-- One recommendation: indicator key and priority tag.  The code also
renders the key (`replace('_', ' ').title()`) and a per-indicator,
per-sign message text; neither affects membership, count or order. -/
structure Recomendacion where
  indicador : String
  prioridad : Prioridad
deriving DecidableEq, Repr

/-- The sort key comparison of `generar_recomendaciones`
(`key=lambda x: orden_prioridad[x['prioridad']]`, ascending). -/
def ordenLE (a b : Recomendacion) : Bool :=
  a.prioridad.orden ≤ b.prioridad.orden

/-- `generar_recomendaciones` (analisis_brechas.py lines 123-155) on an
already-computed gap matrix: skip entries with `|brecha| < 0.1`, then
stable-sort by `orden_prioridad` (Python `list.sort` is stable; the
embedding uses the stable `List.mergeSort`).  On an empty matrix the
code returns `[]`. -/
def generar_recomendaciones (matriz : List (String × EntradaBrecha)) :
    List Recomendacion :=
  let recomendaciones := (matriz.filter fun e => ¬ |e.2.brecha| < 1/10).map
    fun e => (⟨e.1, e.2.prioridad⟩ : Recomendacion)
  recomendaciones.mergeSort ordenLE

/-! ## Concrete inputs used by the evaluation theorems -/

/-- The default operational data with `eficiencia = -0.1`, the scenario
of `test_valores_invalidos` (tests/test_modelo_practico.py). -/
def datos_eficiencia_negativa : DatosOperativos :=
  { capacidad := { pacientes_dia := 24, dias_mes := 20, eficiencia := -1/10 }
  , costos := { fijo_mensual := 17291667, variable_paciente := 45000
              , costo_unitario_atencion := 103750 }
  , poblacion_objetivo := 10000 }

/-- The default operational data with a negative daily capacity
(`np.random.poisson` raises `ValueError` for a negative rate). -/
def datos_capacidad_negativa : DatosOperativos :=
  { capacidad := { pacientes_dia := -1, dias_mes := 20, eficiencia := 2/5 }
  , costos := { fijo_mensual := 17291667, variable_paciente := 45000
              , costo_unitario_atencion := 103750 }
  , poblacion_objetivo := 10000 }

/-- The compliance report produced for the default goals and the default
initial configuration. -/
def cumplimiento_ejemplo : Cumplimiento :=
  { global := 4763/5760, cobertura := 4/5, operacion := 13/16
  , financiero := 8/9, calidad := 129/160
  , det_cobertura := ⟨4/5, 1, 4/5⟩
  , det_eficiencia := ⟨7/10, 4/5, 7/8⟩
  , det_capacidad := ⟨30, 40, 3/4⟩
  , det_costo := ⟨90000, 70000, 7/9⟩
  , det_sostenibilidad := ⟨11/10, 1, 1⟩ }

/-! ## Helper lemmas -/

/-- A capped compliance ratio `min(x / y, 1)` lies in `[0, 1]` whenever
the numerator is nonnegative and the denominator positive. -/
lemma score_bounds {x y : ℚ} (hx : 0 ≤ x) (hy : 0 < y) :
    0 ≤ min (x / y) 1 ∧ min (x / y) 1 ≤ 1 :=
  ⟨le_min (div_nonneg hx hy.le) zero_le_one, min_le_right _ _⟩

/-- The recommendation comparison is transitive. -/
lemma ordenLE_trans (a b c : Recomendacion) :
    ordenLE a b → ordenLE b c → ordenLE a c := by
  simp only [ordenLE, decide_eq_true_eq]
  omega

/-- The recommendation comparison is total. -/
lemma ordenLE_total (a b : Recomendacion) : ordenLE a b || ordenLE b a := by
  simp only [ordenLE, Bool.or_eq_true, decide_eq_true_eq]
  omega

/-- Stability of the recommendation sort: the entries of any one
priority tier appear in the sorted output in their original order. -/
lemma filter_prioridad_mergeSort (l : List Recomendacion) (p : Prioridad) :
    (l.mergeSort ordenLE).filter (fun r => r.prioridad = p) =
      l.filter (fun r => r.prioridad = p) := by
  have hpw : (l.filter (fun r => r.prioridad = p)).Pairwise
      (fun a b => ordenLE a b) := by
    apply List.pairwise_of_forall_mem_list
    intro a ha b hb
    have ha2 := List.of_mem_filter ha
    have hb2 := List.of_mem_filter hb
    simp only [decide_eq_true_eq] at ha2 hb2
    simp [ordenLE, ha2, hb2]
  have hsub : List.Sublist (l.filter (fun r => r.prioridad = p))
      (l.mergeSort ordenLE) :=
    List.sublist_mergeSort ordenLE_trans ordenLE_total hpw (List.filter_sublist l)
  have hsub2 := hsub.filter (fun r => decide (r.prioridad = p))
  rw [List.filter_filter] at hsub2
  simp only [Bool.and_self] at hsub2
  have hlen : ((l.mergeSort ordenLE).filter (fun r => r.prioridad = p)).length =
      (l.filter (fun r => r.prioridad = p)).length := by
    rw [← List.countP_eq_length_filter, ← List.countP_eq_length_filter]
    exact (List.mergeSort_perm l ordenLE).countP_eq _
  exact (hsub2.eq_of_length hlen.symm).symm

/-! ## Claim C5: the sustainability denominator guard -/

/-- C5 counterexample: at monthly cost exactly `0` the code returns
`float('inf')`, not the finite value `ingresos / 1` that a floor of 1 on
the denominator would give. -/
theorem C5_contraejemplo :
    analizar_sostenibilidad 5 0 = SostValor.inf ∧
      SostValor.inf ≠ SostValor.val (5 / 1) := by
  decide

/-- C5 (amended): the sustainability ratio applies no floor to the
denominator: for any nonzero monthly cost it is the plain quotient
`ingresos / costos`, and for a zero cost it is the infinity sentinel (so
no division-by-zero fault ever occurs, but the value is not finite). -/
theorem C5_sostenibilidad_sin_piso (ingresos costos : ℚ) :
    (costos ≠ 0 →
        analizar_sostenibilidad ingresos costos = SostValor.val (ingresos / costos)) ∧
      (costos = 0 → analizar_sostenibilidad ingresos costos = SostValor.inf) := by
  constructor <;> intro h <;> simp [analizar_sostenibilidad, h]

/-- C5 witness: the amended statement applied at `ingresos = 7` with
`costos = 2` and with `costos = 0`. -/
theorem C5_testigo :
    analizar_sostenibilidad 7 2 = SostValor.val (7 / 2) ∧
      analizar_sostenibilidad 7 0 = SostValor.inf :=
  ⟨(C5_sostenibilidad_sin_piso 7 2).1 (by decide),
    (C5_sostenibilidad_sin_piso 7 0).2 rfl⟩

/-! ## Claim C3: the solver-mode objective function -/

/-- C3 counterexample: at the decision vector `(40, 0.8, 1.0, 70000)`
with the default goals, the objective actually minimized by
`UMSTeorico.optimizar` evaluates to `0.4`, while the claimed formula
(the module-level `funcion_objetivo` with monthly-cost normalization and
sustainability shortfall) evaluates to a different value. -/
theorem C3_contraejemplo :
    funcion_objetivo_teorico ⟨40, 4/5, 1, 70000⟩ metas_defecto = 2/5 ∧
      funcion_objetivo ⟨40, 4/5, 1, 70000⟩ metas_defecto ≠ 2/5 := by
  constructor
  · norm_num [funcion_objetivo_teorico, metas_defecto]
  · norm_num [funcion_objetivo, metas_defecto, max_def]

/-- C3 (amended): in solver mode the minimized objective is
`0.4 * (costo_unitario / costo_unitario_max)` plus `0.2` times each of
the three relative deviations of capacity, efficiency and coverage from
their goals; in particular it does not depend on the sustainability goal
at all (the monthly-cost/sustainability formula belongs to the never
invoked module-level `funcion_objetivo`). -/
theorem C3_objetivo_solver (x : Configuracion) (metas : MetasIdeales) (s : ℚ) :
    funcion_objetivo_teorico x metas =
        (2/5) * (x.costo_unitario / metas.costo_unitario_max) +
        (1/5) * (|x.capacidad_diaria - metas.capacidad_optima| / metas.capacidad_optima) +
        (1/5) * (|x.eficiencia_operativa - metas.eficiencia_operativa| /
          metas.eficiencia_operativa) +
        (1/5) * (|x.cobertura_objetivo - metas.poblacion_objetivo| /
          metas.poblacion_objetivo) ∧
      funcion_objetivo_teorico x { metas with sostenibilidad_min := s } =
        funcion_objetivo_teorico x metas :=
  ⟨rfl, rfl⟩

/-! ## Claim C2: behaviour of `optimizar` on convergence failure -/

/-- C2 counterexample: a solver return that reports non-convergence
(`success = False`) is not mapped to the empty result: the unconverged
iterate is stored and surfaced as the configuration. -/
theorem C2_contraejemplo :
    Option.map Resultados.configuracion
        (optimizar_solver metas_defecto (SolverOutcome.ok configuracion_inicial false)) =
        some configuracion_inicial ∧
      optimizar_solver metas_defecto (SolverOutcome.ok configuracion_inicial false) ≠
        none := by
  have h1 : Option.map Resultados.configuracion
      (optimizar_solver metas_defecto (SolverOutcome.ok configuracion_inicial false)) =
      some configuracion_inicial := by
    norm_num [optimizar_solver, calcular_estadisticas_derivadas,
      evaluar_cumplimiento_metas, metas_defecto, configuracion_inicial]
  refine ⟨h1, fun h2 => ?_⟩
  rw [h2] at h1
  simp at h1

/-- C2 (amended): `optimizar` returns the empty result exactly when the
solver call (or the post-solve derivation) raises; no exception escapes.
When the solver returns without raising, the result is independent of
the reported `success` flag, and whatever configuration is surfaced is
the solver iterate `resultado.x` — converged or not. -/
theorem C2_optimizar_solver (metas : MetasIdeales) (x : Configuracion)
    (s₁ s₂ : Bool) :
    optimizar_solver metas SolverOutcome.raised = none ∧
      optimizar_solver metas (SolverOutcome.ok x s₁) =
        optimizar_solver metas (SolverOutcome.ok x s₂) ∧
      (Option.map Resultados.configuracion
          (optimizar_solver metas (SolverOutcome.ok x s₁)) = some x ∨
        optimizar_solver metas (SolverOutcome.ok x s₁) = none) := by
  refine ⟨rfl, rfl, ?_⟩
  simp only [optimizar_solver]
  cases h1 : calcular_estadisticas_derivadas x with
  | none => exact Or.inr rfl
  | some est =>
    cases h2 : evaluar_cumplimiento_metas metas x with
    | none => exact Or.inr rfl
    | some cum => exact Or.inl rfl

/-! ## Claim C4: the post-solve derivation -/

/-- C4 counterexample: with `cobertura_objetivo = 0` the covered
population is `0` and the units-per-100k division raises
`ZeroDivisionError`; the derivation does not complete. -/
theorem C4_contraejemplo :
    calcular_estadisticas_derivadas ⟨30, 7/10, 0, 90000⟩ = none := by
  norm_num [calcular_estadisticas_derivadas]

/-- C4 (amended): for any configuration whose coverage target is
nonzero, the derivation computes attendances `= capacidad * eficiencia *
20`, covered population `= 10000 * cobertura`, units per 100k
`= 100000 / covered`, total monthly cost `= costo_unitario *
atenciones`, and cost per capita `= total / covered` when the covered
population is positive and `0` otherwise; when the coverage target is
zero the derivation raises (only the cost-per-capita division is
guarded). -/
theorem C4_derivadas (config : Configuracion) :
    (config.cobertura_objetivo ≠ 0 →
        calcular_estadisticas_derivadas config = some
          { atenciones_mensuales :=
              config.capacidad_diaria * config.eficiencia_operativa * 20
          , poblacion_cubierta := 10000 * config.cobertura_objetivo
          , ums_requeridas_100k := 100000 / (10000 * config.cobertura_objetivo)
          , costo_total_mensual := config.costo_unitario *
              (config.capacidad_diaria * config.eficiencia_operativa * 20)
          , costo_por_habitante_mes :=
              if 0 < 10000 * config.cobertura_objetivo then
                config.costo_unitario *
                    (config.capacidad_diaria * config.eficiencia_operativa * 20) /
                  (10000 * config.cobertura_objetivo)
              else 0 }) ∧
      (config.cobertura_objetivo = 0 →
        calcular_estadisticas_derivadas config = none) := by
  constructor <;> intro h <;>
    simp [calcular_estadisticas_derivadas, div_one, h, mul_eq_zero]

/-- C4 witness: the amended statement applied to the default initial
configuration. -/
theorem C4_testigo :
    calcular_estadisticas_derivadas configuracion_inicial =
      some ⟨420, 8000, 25/2, 37800000, 4725⟩ := by
  rw [(C4_derivadas configuracion_inicial).1 (by norm_num [configuracion_inicial])]
  norm_num [configuracion_inicial]

/-! ## Claim C10: the sustainability compliance entry is constant -/

/-- C10: for a fixed goals mapping, the `sostenibilidad` entry of the
compliance report is the same for every resolved configuration: its
reported actual value is `min(1.2, sostenibilidad_min + 0.1)`, computed
from the goal alone, so the sustainability compliance score never
depends on the optimized configuration. -/
theorem C10_sostenibilidad_constante (metas : MetasIdeales)
    (c₁ c₂ : Configuracion) :
    Option.map Cumplimiento.det_sostenibilidad
        (evaluar_cumplimiento_metas metas c₁) =
      Option.map Cumplimiento.det_sostenibilidad
        (evaluar_cumplimiento_metas metas c₂) ∧
      Option.map Cumplimiento.det_sostenibilidad
          (evaluar_cumplimiento_metas metas c₁) =
        (if metas.poblacion_objetivo = 0 ∨ metas.eficiencia_operativa = 0 ∨
            metas.capacidad_optima = 0 ∨ metas.sostenibilidad_min = 0 then none
          else some ⟨min (6/5) (metas.sostenibilidad_min + 1/10),
            metas.sostenibilidad_min,
            min (min (6/5) (metas.sostenibilidad_min + 1/10) /
              metas.sostenibilidad_min) 1⟩) := by
  unfold evaluar_cumplimiento_metas
  split <;> exact ⟨rfl, rfl⟩

/-! ## Claim C6: priority tiers and their monotonicity -/

/-- C6: the priority tier is `Alta` exactly when `|gap| ≥ 0.5`, `Media`
exactly when `0.2 ≤ |gap| < 0.5`, and `Baja` otherwise; consequently the
assignment is monotone in `|gap|` (a strictly smaller absolute gap never
receives a stricter priority). -/
theorem C6_prioridad_brechas (g g₁ g₂ : ℚ) :
    (asignar_prioridad g = Prioridad.Alta ↔ 1/2 ≤ |g|) ∧
      (asignar_prioridad g = Prioridad.Media ↔ 1/5 ≤ |g| ∧ |g| < 1/2) ∧
      (asignar_prioridad g = Prioridad.Baja ↔ |g| < 1/5) ∧
      (|g₁| < |g₂| →
        (asignar_prioridad g₁).severidad ≤ (asignar_prioridad g₂).severidad) := by
  refine ⟨?_, ?_, ?_, ?_⟩
  · unfold asignar_prioridad
    split_ifs with h1 h2 <;> simp_all
  · unfold asignar_prioridad
    split_ifs with h1 h2 <;> simp_all
  · unfold asignar_prioridad
    split_ifs with h1 h2 <;> simp_all
    linarith
  · intro hlt
    unfold asignar_prioridad
    split_ifs with h1 h2 h3 h4 h5 <;>
      simp_all [Prioridad.severidad] <;> linarith

/-- C6 witness: the monotonicity conclusion applied to the concrete gaps
`0.1` and `0.6`. -/
theorem C6_testigo :
    (asignar_prioridad (1/10)).severidad ≤ (asignar_prioridad (3/5)).severidad :=
  (C6_prioridad_brechas 0 (1/10) (3/5)).2.2.2 (by rw [abs_of_pos, abs_of_pos] <;> norm_num)

/-! ## Claim C7: the relative gap and its sign convention -/

/-- C7: the relative gap is `(real − ideal)/ideal`, `0` when the ideal
is `0`; the sign is flipped exactly for the `menor_mejor` mode, which
`comparar_modelos` enables for the cost-effectiveness indicator only; a
real value below a positive ideal therefore yields a negative gap in the
plain mode and a positive gap in cost mode. -/
theorem C7_brecha_porcentual (reales : DatosReales) (ideales : DatosIdeales)
    (v w : ℚ) :
    (calcular_brecha_porcentual v w false = if w = 0 then 0 else (v - w) / w) ∧
      (calcular_brecha_porcentual v w true = -calcular_brecha_porcentual v w false) ∧
      ((comparar_modelos reales ideales).map (fun e => (e.1, e.2.brecha)) =
        [ ("cobertura",
            calcular_brecha_porcentual reales.cobertura ideales.cobertura false)
        , ("eficiencia",
            calcular_brecha_porcentual reales.eficiencia ideales.eficiencia false)
        , ("costo_efectividad",
            calcular_brecha_porcentual (reales.costos / max 1 reales.demanda)
              ideales.costo_atencion true)
        , ("sostenibilidad",
            calcular_brecha_porcentual reales.sostenibilidad
              ideales.sostenibilidad false) ]) ∧
      (0 < w → v < w →
        calcular_brecha_porcentual v w false < 0 ∧
          0 < calcular_brecha_porcentual v w true) := by
  refine ⟨?_, ?_, rfl, ?_⟩
  · unfold calcular_brecha_porcentual
    split <;> rfl
  · unfold calcular_brecha_porcentual
    split <;> simp
  · intro hw hv
    have hw0 : w ≠ 0 := ne_of_gt hw
    have hneg : (v - w) / w < 0 :=
      div_neg_of_neg_of_pos (sub_neg.mpr hv) hw
    constructor
    · simpa [calcular_brecha_porcentual, hw0] using hneg
    · simp only [calcular_brecha_porcentual, hw0, if_false, if_true]
      simpa using hneg

/-- C7 witness: the sign conclusions applied at `real = 1`, `ideal = 2`. -/
theorem C7_testigo :
    calcular_brecha_porcentual 1 2 false < 0 ∧
      0 < calcular_brecha_porcentual 1 2 true :=
  (C7_brecha_porcentual ⟨0, 0, 0, 0, 0⟩ ⟨0, 0, 0, 0⟩ 1 2).2.2.2
    (by norm_num) (by norm_num)

/-! ## Claim C9: range of the compliance scores -/

/-- C9 counterexample: a direct-mode configuration outside the solver
box (coverage target `-10`) yields a coverage category score of `-10`
and a global score of `-3713/1152`, both outside `[0, 1]`. -/
theorem C9_contraejemplo :
    Option.map Cumplimiento.cobertura
        (evaluar_cumplimiento_metas metas_defecto ⟨30, 7/10, -10, 90000⟩) =
        some (-10) ∧
      Option.map Cumplimiento.global
        (evaluar_cumplimiento_metas metas_defecto ⟨30, 7/10, -10, 90000⟩) =
        some (-3713/1152) ∧
      ((-10 : ℚ) < 0 ∧ (-3713/1152 : ℚ) < 0) := by
  refine ⟨?_, ?_, by norm_num, by norm_num⟩ <;>
    norm_num [evaluar_cumplimiento_metas, metas_defecto, min_def, max_def]

/-- C9 (amended): whenever the goal values used as denominators are
positive and the configuration values compared by ratio are nonnegative
(any unit cost is allowed, its denominator is floored at 1), the report
is produced and the global score and every category score lie in
`[0, 1]`. -/
theorem C9_cumplimiento_en_rango (metas : MetasIdeales) (config : Configuracion)
    (hpo : 0 < metas.poblacion_objetivo) (heo : 0 < metas.eficiencia_operativa)
    (hco : 0 < metas.capacidad_optima) (hcu : 0 < metas.costo_unitario_max)
    (hso : 0 < metas.sostenibilidad_min)
    (hc1 : 0 ≤ config.cobertura_objetivo) (hc2 : 0 ≤ config.eficiencia_operativa)
    (hc3 : 0 ≤ config.capacidad_diaria) :
    (evaluar_cumplimiento_metas metas config).isSome = true ∧
      ∀ r, evaluar_cumplimiento_metas metas config = some r →
        (0 ≤ r.global ∧ r.global ≤ 1) ∧ (0 ≤ r.cobertura ∧ r.cobertura ≤ 1) ∧
          (0 ≤ r.operacion ∧ r.operacion ≤ 1) ∧
          (0 ≤ r.financiero ∧ r.financiero ≤ 1) ∧
          (0 ≤ r.calidad ∧ r.calidad ≤ 1) := by
  have hguard : ¬(metas.poblacion_objetivo = 0 ∨ metas.eficiencia_operativa = 0 ∨
      metas.capacidad_optima = 0 ∨ metas.sostenibilidad_min = 0) := by
    push_neg
    exact ⟨hpo.ne', heo.ne', hco.ne', hso.ne'⟩
  have hcob := score_bounds hc1 hpo
  have hef := score_bounds hc2 heo
  have hcap := score_bounds hc3 hco
  have hcosto := score_bounds hcu.le
    (lt_of_lt_of_le one_pos (le_max_right config.costo_unitario 1))
  have hsost := score_bounds (x := min (6/5) (metas.sostenibilidad_min + 1/10))
    (y := metas.sostenibilidad_min)
    (le_min (by norm_num) (by linarith)) hso
  unfold evaluar_cumplimiento_metas
  rw [if_neg hguard]
  refine ⟨rfl, fun r hr => ?_⟩
  rw [Option.some_inj] at hr
  subst hr
  refine ⟨⟨?_, ?_⟩, ⟨hcob.1, hcob.2⟩, ⟨?_, ?_⟩, ⟨?_, ?_⟩, ⟨?_, ?_⟩⟩ <;>
    · dsimp only
      obtain ⟨a1, a2⟩ := hcob
      obtain ⟨b1, b2⟩ := hef
      obtain ⟨c1, c2⟩ := hcap
      obtain ⟨d1, d2⟩ := hcosto
      obtain ⟨e1, e2⟩ := hsost
      linarith

/-- C9 witness: the amended statement applied to the default goals and
the default initial configuration, whose report is
`cumplimiento_ejemplo`. -/
theorem C9_testigo :
    (0 ≤ cumplimiento_ejemplo.global ∧ cumplimiento_ejemplo.global ≤ 1) ∧
      (0 ≤ cumplimiento_ejemplo.cobertura ∧ cumplimiento_ejemplo.cobertura ≤ 1) ∧
      (0 ≤ cumplimiento_ejemplo.operacion ∧ cumplimiento_ejemplo.operacion ≤ 1) ∧
      (0 ≤ cumplimiento_ejemplo.financiero ∧ cumplimiento_ejemplo.financiero ≤ 1) ∧
      (0 ≤ cumplimiento_ejemplo.calidad ∧ cumplimiento_ejemplo.calidad ≤ 1) :=
  (C9_cumplimiento_en_rango metas_defecto configuracion_inicial
      (by norm_num [metas_defecto]) (by norm_num [metas_defecto])
      (by norm_num [metas_defecto]) (by norm_num [metas_defecto])
      (by norm_num [metas_defecto]) (by norm_num [configuracion_inicial])
      (by norm_num [configuracion_inicial]) (by norm_num [configuracion_inicial])).2
    cumplimiento_ejemplo
    (by norm_num [evaluar_cumplimiento_metas, metas_defecto, configuracion_inicial,
      cumplimiento_ejemplo, min_def, max_def])

/-! ## Claim C1: the simulator on degenerate numeric parameters -/

/-- C1: evaluation of the simulation at the failing input of
`test_valores_invalidos` (default data, `eficiencia = -0.1`, the test's
10 trials over 12 months, any draw stream collapses to the same value):
every day clamps to the negative effective capacity
`24 * (-0.1) = -2.4`, so the mean-demand statistic is `-48 < 0`,
contradicting the claimed (and test-asserted) nonnegativity; moreover a
negative daily capacity makes the Poisson sampler raise, so the claimed
no-throw guarantee fails as well. -/
theorem C1_codigo_eval :
    Option.map (fun ts => (calcular_estadisticas ts).demanda.media)
        (simular? datos_eficiencia_negativa 10 12 fun _ _ _ => 0) = some (-48) ∧
      ((-48 : ℚ) < 0) ∧
      simular? datos_capacidad_negativa 1 1 (fun _ _ _ => 0) = none := by
  have h20 : List.range 20 =
      [0, 1, 2, 3, 4, 5, 6, 7, 8, 9, 10, 11, 12, 13, 14, 15, 16, 17, 18, 19] := rfl
  have h12 : List.range 12 = [0, 1, 2, 3, 4, 5, 6, 7, 8, 9, 10, 11] := rfl
  have h10 : List.range 10 = [0, 1, 2, 3, 4, 5, 6, 7, 8, 9] := rfl
  have h1 : List.range 1 = [0] := rfl
  have hd : demanda_mensual? datos_eficiencia_negativa (fun _ => 0) = some (-48) := by
    simp only [demanda_mensual?, datos_eficiencia_negativa, h20, List.foldl_cons,
      List.foldl_nil, generar_demanda_diaria]
    norm_num [min_def]
  have hmes : simular_mes? datos_eficiencia_negativa (fun _ => 0) =
      some ⟨-48, 15131667, -18/625, SostValor.val (-1660000/5043889)⟩ := by
    rw [simular_mes?, hd]
    norm_num [calcular_costos_totales, analizar_sostenibilidad, min_def,
      datos_eficiencia_negativa]
  have hop : simular_operacion? datos_eficiencia_negativa 12 (fun _ _ => 0) =
      some ⟨-48, 15131667, -18/625, SostValor.val (-1660000/5043889)⟩ := by
    simp only [simular_operacion?, h12, List.mapM_cons, List.mapM_nil, hmes,
      Option.pure_def, Option.bind_eq_bind, Option.some_bind, Option.map_some]
    norm_num [mediaQ, mediaSost]
    exact fun h => SostValor.noConfusion h
  have hsim : simular? datos_eficiencia_negativa 10 12 (fun _ _ _ => 0) =
      some (List.replicate 10
        ⟨-48, 15131667, -18/625, SostValor.val (-1660000/5043889)⟩) := by
    simp only [simular?, h10, List.mapM_cons, List.mapM_nil, hop,
      Option.pure_def, Option.bind_eq_bind, Option.some_bind]
    rfl
  refine ⟨?_, by norm_num, ?_⟩
  · rw [hsim]
    simp only [Option.map_some, calcular_estadisticas, estadisticas]
    norm_num [mediaQ, List.replicate]
  · have hdneg : demanda_mensual? datos_capacidad_negativa (fun _ => 0) = none := by
      simp only [demanda_mensual?, datos_capacidad_negativa, h20, List.foldl_cons,
        List.foldl_nil, generar_demanda_diaria]
      norm_num
    simp only [simular?, h1, List.mapM_cons, List.mapM_nil, simular_operacion?,
      simular_mes?, hdneg, Option.pure_def, Option.bind_eq_bind, Option.none_bind,
      Option.map_none', Option.some_bind]

/-! ## Claim C8: recommendation generation -/

/-- C8: on an empty gap matrix the generator returns the empty list; on
the four-indicator matrix of `comparar_modelos` it emits at most 4
recommendations, sorted ascending by `orden_prioridad`
(`Alta, Media, Baja`), as a permutation of the sub-`0.1`-filtered
indicator list (exactly one recommendation per indicator with
`|gap| ≥ 0.10`), and the stable sort preserves the original indicator
order within every priority tier. -/
theorem C8_recomendaciones (reales : DatosReales) (ideales : DatosIdeales) :
    generar_recomendaciones [] = [] ∧
      (generar_recomendaciones (comparar_modelos reales ideales)).length ≤ 4 ∧
      (generar_recomendaciones (comparar_modelos reales ideales)).Pairwise
        (fun a b => a.prioridad.orden ≤ b.prioridad.orden) ∧
      List.Perm (generar_recomendaciones (comparar_modelos reales ideales))
        (((comparar_modelos reales ideales).filter fun e => ¬ |e.2.brecha| < 1/10).map
          fun e => (⟨e.1, e.2.prioridad⟩ : Recomendacion)) ∧
      ∀ p : Prioridad,
        (generar_recomendaciones (comparar_modelos reales ideales)).filter
            (fun r => r.prioridad = p) =
          (((comparar_modelos reales ideales).filter fun e => ¬ |e.2.brecha| < 1/10).map
            fun e => (⟨e.1, e.2.prioridad⟩ : Recomendacion)).filter
            (fun r => r.prioridad = p) := by
  refine ⟨?_, ?_, ?_, ?_, ?_⟩
  · simp [generar_recomendaciones]
  · simp only [generar_recomendaciones, List.length_mergeSort, List.length_map]
    calc ((comparar_modelos reales ideales).filter fun e => ¬ |e.2.brecha| < 1/10).length
        ≤ (comparar_modelos reales ideales).length := List.length_filter_le _ _
      _ = 4 := rfl
  · have hs := List.sorted_mergeSort ordenLE_trans ordenLE_total
      (((comparar_modelos reales ideales).filter fun e => ¬ |e.2.brecha| < 1/10).map
        fun e => (⟨e.1, e.2.prioridad⟩ : Recomendacion))
    simp only [generar_recomendaciones]
    exact hs.imp fun h => by simpa [ordenLE] using h
  · simp only [generar_recomendaciones]
    exact List.mergeSort_perm _ _
  · intro p
    simp only [generar_recomendaciones]
    exact filter_prioridad_mergeSort _ p

end UMS
